import Mathlib

/-!
Shallow embedding of the `Anmol6/instructor` repository: the two tutorial
notebooks (`src/tutorials/2.tips.ipynb`, `src/tutorials/3.0.applications-rag.ipynb`)
and the pre-commit configuration (`src/.pre-commit-config.yaml`).

The notebooks declare pydantic schemas, issue calls to an external LLM API and
display the results.  The deterministic, source-owned pieces are embedded as
executable Lean definitions: the value-level records behind each schema, the
`say_hello` formatting method, the graphviz edge-construction loop, and the
structure of every code cell (so that absence claims — no exception handler, no
retry loop, no asynchronous dispatch — are settled against a transcription a
reader can diff cell by cell against the notebook source).
-/

/-- Python `str.title()` on a list of characters: an alphabetic character is
uppercased when the previous character was not alphabetic and lowercased
otherwise; non-alphabetic characters pass through and reset the word. -/
def titleChars : Bool → List Char → List Char
  | _, [] => []
  | prevAlpha, c :: cs =>
    if c.isAlpha then
      (if prevAlpha then c.toLower else c.toUpper) :: titleChars true cs
    else
      c :: titleChars false cs

/-- Python `str.title()` (as used on the `House` enum values, which are single
lowercase ASCII words). -/
def pyTitle (s : String) : String := String.mk (titleChars false s.data)

/-- A string with its first letter capitalized and the rest unchanged (the
spec's phrase "the house's enum value with its first letter capitalized"). -/
def capFirstLetter (s : String) : String :=
  match s.data with
  | [] => s
  | c :: cs => String.mk (c.toUpper :: cs)

/-- Snake case as the `Field(description="Must be snake case")` prose refers to
it: lowercase letters, digits and underscores only. -/
def isSnakeCase (s : String) : Bool :=
  s.data.all (fun c => c.isLower || c.isDigit || c == '_')

namespace Tips

/-- `class House(Enum)` of the classification cell (2.tips.ipynb, first code
cell): four members with lowercase string values. -/
inductive House where
  | Gryffindor
  | Hufflepuff
  | Ravenclaw
  | Slytherin
deriving DecidableEq

/-- The `.value` of each `House` member. -/
def House.value : House → String
  | .Gryffindor => "gryffindor"
  | .Hufflepuff => "hufflepuff"
  | .Ravenclaw => "ravenclaw"
  | .Slytherin => "slytherin"

/-- `class Character(BaseModel)` of the classification cell: `age: int`,
`name: str`, `house: House`. -/
structure Character where
  age : Int
  name : String
  house : House
deriving DecidableEq

/-- `Character.say_hello`: the string printed by
`print(f"Hello, I'm {self.name}, I'm {self.age} years old and I'm from {self.house.value.title()}")`. -/
def Character.say_hello (c : Character) : String :=
  "Hello, I'm " ++ c.name ++ ", I'm " ++ toString c.age ++
    " years old and I'm from " ++ pyTitle c.house.value

end Tips

/-- The `Literal["Gryffindor", "Hufflepuff", "Ravenclaw", "Slytherin"]` type
used for `house` in the later `Character` declarations. -/
inductive HouseLiteral where
  | Gryffindor
  | Hufflepuff
  | Ravenclaw
  | Slytherin
deriving DecidableEq

namespace TipsProps

/-- `class Property(BaseModel)` of the "Limiting the length of lists" cell
(2.tips.ipynb): `index: str`, `key: str`, `value: str`.  The declarations carry
`Field` descriptions but no validator, so construction is plain record
construction with no constraint on any field. -/
structure Property where
  index : String
  key : String
  value : String
deriving DecidableEq

/-- `class Character(BaseModel)` of the same cell: `age: int`, `name: str`,
`house: Literal[...]`, `properties: List[Property]`.  The "should be exactly 5"
text lives only in the field description; no validator constrains the list. -/
structure Character where
  age : Int
  name : String
  house : HouseLiteral
  properties : List Property
deriving DecidableEq

end TipsProps

namespace TipsGraph

/-- `class Character(BaseModel)` of the "Defining Relationships" cell
(2.tips.ipynb): `id: int`, `name: str`, `friends: List[int]`. -/
structure Character where
  id : Int
  name : String
  friends : List Int
deriving DecidableEq

/-- The node loop of the graph-rendering cell:
`for user in resp: dot.node(str(user.id), user.name)`. -/
def nodesOf (users : List Character) : List (String × String) :=
  users.map (fun u => (toString u.id, u.name))

/-- The edge loop of the graph-rendering cell:
`for user in resp: for friend_id in user.friends: if friend_id > user.id:
dot.edge(str(user.id), str(friend_id))` — the list of directed edges handed to
graphviz, in order. -/
def edgesOf (users : List Character) : List (Int × Int) :=
  users.flatMap (fun u =>
    (u.friends.filter (fun f => decide (f > u.id))).map (fun f => (u.id, f)))

/-- Modelled from the spec: the spec says every cell is "limited to display,
with no locally computed, deterministic function of its inputs", so the edge
cell would hand graphviz exactly the `(user.id, friend_id)` pairs read from the
response, unmodified.  This definition follows the spec's words, to be compared
with `edgesOf`, which embeds the source. -/
def displayOnlyEdges (users : List Character) : List (Int × Int) :=
  users.flatMap (fun u => u.friends.map (fun f => (u.id, f)))

end TipsGraph

namespace Rag

/-- `class Extraction(BaseModel)` (3.0.applications-rag.ipynb): `topic: str`,
`summary: str`, `hypothetical_questions: List[str]` and `keywords: List[str]`,
both with `default_factory=list`. -/
structure Extraction where
  topic : String
  summary : String
  hypothetical_questions : List String
  keywords : List String
deriving DecidableEq

/-- Pydantic construction of `Extraction`: an omitted field with
`default_factory=list` is filled by calling `list()`, i.e. with a fresh empty
list.  Omission is modelled by `none`. -/
def Extraction.make (topic summary : String)
    (hq kw : Option (List String)) : Extraction :=
  ⟨topic, summary, hq.getD [], kw.getD []⟩

/-- `class Question(BaseModel)` of the query-decomposition cell: `id: int`,
`query: str`, `subquestions: List[int]` with `default_factory=list`. -/
structure Question where
  id : Int
  query : String
  subquestions : List Int
deriving DecidableEq

/-- Pydantic construction of `Question`: an omitted `subquestions` is filled by
`default_factory=list`, i.e. with a fresh empty list. -/
def Question.make (id : Int) (query : String) (subs : Option (List Int)) : Question :=
  ⟨id, query, subs.getD []⟩

/-- `class QueryPlan(BaseModel)`: `root_question: str`, `plan: List[Question]`. -/
structure QueryPlan where
  root_question : String
  plan : List Question
deriving DecidableEq

end Rag

/-! ## Schema declarations as data

Each pydantic model declaration in the notebooks is transcribed as a value of
`PyModel`: field name, field type, the `Field(description=...)` text when one
is given, and whether the field carries `default_factory=list`.  The
declarations are data handed to the external library; transcribing them lets
the content claims (which patterns appear, which descriptions are prose) be
settled by evaluation. -/

/-- The type annotation of a pydantic field as the notebooks write it. -/
inductive FieldTy where
  | int
  | str
  | date
  | literal (vals : List String)
  | enumTy (name : String) (vals : List String)
  | listOf (t : FieldTy)
  | ref (name : String)
deriving DecidableEq

/-- One field of a pydantic model declaration. -/
structure PyField where
  name : String
  ty : FieldTy
  description : Option String
  defaultFactoryList : Bool
deriving DecidableEq

/-- One pydantic model declaration. -/
structure PyModel where
  name : String
  fields : List PyField
deriving DecidableEq

/-- One Python `Enum` declaration: members as (member name, string value). -/
structure PyEnum where
  name : String
  members : List (String × String)
deriving DecidableEq

/-- `House(Enum)` (2.tips.ipynb, classification cell). -/
def houseEnum : PyEnum :=
  ⟨"House", [("Gryffindor", "gryffindor"), ("Hufflepuff", "hufflepuff"),
             ("Ravenclaw", "ravenclaw"), ("Slytherin", "slytherin")]⟩

/-- The `Literal[...]` values of the `house` field in the later cells. -/
def houseLiterals : List String :=
  ["Gryffindor", "Hufflepuff", "Ravenclaw", "Slytherin"]

/-- `Character` of the classification cell: `house` is `House`-typed. -/
def characterEnumModel : PyModel :=
  ⟨"Character",
   [⟨"age", .int, none, false⟩, ⟨"name", .str, none, false⟩,
    ⟨"house", .enumTy "House" ["gryffindor", "hufflepuff", "ravenclaw", "slytherin"],
     none, false⟩]⟩

/-- `Character` of the Literal-classification cell. -/
def characterLiteralModel : PyModel :=
  ⟨"Character",
   [⟨"age", .int, none, false⟩, ⟨"name", .str, none, false⟩,
    ⟨"house", .literal houseLiterals, none, false⟩]⟩

/-- `Property` of the "Arbitrary properties" cell. -/
def propertyModel : PyModel :=
  ⟨"Property",
   [⟨"key", .str, some "Must be snake case", false⟩,
    ⟨"value", .str, none, false⟩]⟩

/-- `Character` of the "Arbitrary properties" cell: nested `List[Property]`. -/
def characterPropsModel : PyModel :=
  ⟨"Character",
   [⟨"age", .int, none, false⟩, ⟨"name", .str, none, false⟩,
    ⟨"house", .literal houseLiterals, none, false⟩,
    ⟨"properties", .listOf (.ref "Property"), none, false⟩]⟩

/-- `Property` of the "Limiting the length of lists" cell. -/
def propertyIdxModel : PyModel :=
  ⟨"Property",
   [⟨"index", .str, some "Monotonically increasing ID", false⟩,
    ⟨"key", .str, some "Must be snake case", false⟩,
    ⟨"value", .str, none, false⟩]⟩

/-- `Character` of the "Limiting the length of lists" cell: the length-5
requirement appears only as description prose. -/
def characterProps5Model : PyModel :=
  ⟨"Character",
   [⟨"age", .int, none, false⟩, ⟨"name", .str, none, false⟩,
    ⟨"house", .literal houseLiterals, none, false⟩,
    ⟨"properties", .listOf (.ref "Property"),
     some "Numbered list of arbitrary extracted properties, should be exactly 5", false⟩]⟩

/-- `Character` of the "Defining Relationships" cell. -/
def characterFriendsModel : PyModel :=
  ⟨"Character",
   [⟨"id", .int, none, false⟩, ⟨"name", .str, none, false⟩,
    ⟨"friends", .listOf .int, none, false⟩]⟩

/-- `Extraction` (3.0.applications-rag.ipynb). -/
def extractionModel : PyModel :=
  ⟨"Extraction",
   [⟨"topic", .str, none, false⟩, ⟨"summary", .str, none, false⟩,
    ⟨"hypothetical_questions", .listOf .str,
     some "Hypothetical questions that this document could answer", true⟩,
    ⟨"keywords", .listOf .str, some "Keywords that this document is about", true⟩]⟩

/-- `DateRange` (first version). -/
def dateRangeModel : PyModel :=
  ⟨"DateRange", [⟨"start", .date, none, false⟩, ⟨"end", .date, none, false⟩]⟩

/-- `DateRange` (chain-of-thought version). -/
def dateRangeCoTModel : PyModel :=
  ⟨"DateRange",
   [⟨"chain_of_thought", .str,
     some "Think step by step to plan what is the best time range to search in", false⟩,
    ⟨"start", .date, none, false⟩, ⟨"end", .date, none, false⟩]⟩

/-- `Query`. -/
def queryModel : PyModel :=
  ⟨"Query",
   [⟨"rewritten_query", .str, none, false⟩,
    ⟨"published_daterange", .ref "DateRange", none, false⟩]⟩

/-- `SearchClient`. -/
def searchClientModel : PyModel :=
  ⟨"SearchClient",
   [⟨"query", .str, none, false⟩, ⟨"keywords", .listOf .str, none, false⟩,
    ⟨"email", .str, none, false⟩,
    ⟨"source", .literal ["gmail", "calendar"], none, false⟩,
    ⟨"date_range", .ref "DateRange", none, false⟩]⟩

/-- `Retrival`. -/
def retrivalModel : PyModel :=
  ⟨"Retrival", [⟨"queries", .listOf (.ref "SearchClient"), none, false⟩]⟩

/-- `Question` of the query-decomposition cell. -/
def questionModel : PyModel :=
  ⟨"Question",
   [⟨"id", .int, some "A unique identifier for the question", false⟩,
    ⟨"query", .str, some "The question decomposited as much as possible", false⟩,
    ⟨"subquestions", .listOf .int,
     some "The subquestions that this question is composed of", true⟩]⟩

/-- `QueryPlan` of the query-decomposition cell. -/
def queryPlanModel : PyModel :=
  ⟨"QueryPlan",
   [⟨"root_question", .str, some "The root question that the user asked", false⟩,
    ⟨"plan", .listOf (.ref "Question"),
     some "The plan to answer the root question and its subquestions", true⟩]⟩

/-! ## Code cells as data

Every code cell of the two notebooks is transcribed as a list of constructs,
in source order.  The `Construct` type has constructors for the things the
claims say are absent — `tryExcept`, `retryLoop`, `fallback`, `awaitCall`,
`parallelDispatch` — so that their absence from the transcription is the
content of the theorems, not an artefact of an inexpressive type. -/

/-- The `response_model=` argument of a `client.chat.completions.create` call:
either a single model name or `Iterable[...]`. -/
inductive RespModel where
  | single (modelName : String)
  | iterable (modelName : String)
deriving DecidableEq

/-- One `client.chat.completions.create(...)` call: the `model=` string,
whether `stream=True` is passed, and the `response_model`. -/
structure ApiCall where
  model : String
  stream : Bool
  respModel : RespModel
deriving DecidableEq

/-- One construct of a notebook code cell. -/
inductive Construct where
  | imports
  | clientInit
  | enumDef (e : PyEnum)
  | modelDef (m : PyModel)
  | call (c : ApiCall)
  | printResult
  | printLoop
  | textAssign
  | graphInit
  | nodeLoop
  | edgeLoop
  | displayGraph
  | tryExcept
  | retryLoop
  | fallback
  | awaitCall
  | parallelDispatch
deriving DecidableEq

/-- The nine code cells of `2.tips.ipynb`, in order. -/
def tipsCells : List (List Construct) :=
  [[.imports, .clientInit, .enumDef houseEnum, .modelDef characterEnumModel,
    .call ⟨"gpt-4-1106-preview", false, .single "Character"⟩, .printResult],
   [.printResult],
   [.modelDef characterLiteralModel,
    .call ⟨"gpt-4-1106-preview", false, .single "Character"⟩, .printResult],
   [.imports, .modelDef propertyModel, .modelDef characterPropsModel,
    .call ⟨"gpt-4-1106-preview", false, .single "Character"⟩, .printResult],
   [.modelDef propertyIdxModel, .modelDef characterProps5Model,
    .call ⟨"gpt-4-1106-preview", false, .single "Character"⟩, .printResult],
   [.imports, .modelDef characterLiteralModel,
    .call ⟨"gpt-4-1106-preview", false, .iterable "Character"⟩, .printLoop],
   [.imports, .modelDef characterLiteralModel,
    .call ⟨"gpt-4-1106-preview", true, .iterable "Character"⟩, .printLoop],
   [.modelDef characterFriendsModel,
    .call ⟨"gpt-4-1106-preview", true, .iterable "Character"⟩, .printLoop],
   [.imports, .graphInit,
    .call ⟨"gpt-4-1106-preview", false, .iterable "Character"⟩,
    .nodeLoop, .edgeLoop, .displayGraph]]

/-- The cell of `3.0.applications-rag.ipynb` issuing the retrieval request
(`retrival = client.chat.completions.create(...)` then a JSON print). -/
def ragRetrievalCell : List Construct :=
  [.call ⟨"gpt-4-1106-preview", false, .single "Retrival"⟩, .printResult]

/-- The ten code cells of `3.0.applications-rag.ipynb`, in order. -/
def ragCells : List (List Construct) :=
  [[.imports, .clientInit],
   [.modelDef extractionModel],
   [.imports, .textAssign,
    .call ⟨"gpt-4-1106-preview", true, .iterable "Extraction"⟩, .printLoop],
   [.imports, .modelDef dateRangeModel, .modelDef queryModel],
   [.call ⟨"gpt-3.5-turbo", false, .single "Query"⟩, .printResult],
   [.modelDef dateRangeCoTModel, .modelDef queryModel,
    .call ⟨"gpt-4-1106-preview", false, .single "Query"⟩, .printResult],
   [.imports, .modelDef searchClientModel, .modelDef retrivalModel],
   ragRetrievalCell,
   [.call ⟨"gpt-4-1106-preview", false, .single "Retrival"⟩, .printResult],
   [.modelDef questionModel, .modelDef queryPlanModel,
    .call ⟨"gpt-4-1106-preview", false, .single "QueryPlan"⟩, .printResult]]

/-- All code cells of the repository's notebooks. -/
def allCells : List (List Construct) := tipsCells ++ ragCells

/-- Is this construct an exception handler, retry loop or fallback path? -/
def isErrorHandling : Construct → Bool
  | .tryExcept => true
  | .retryLoop => true
  | .fallback => true
  | _ => false

/-- Is this construct an asynchronous or parallel dispatch? -/
def isAsyncDispatch : Construct → Bool
  | .awaitCall => true
  | .parallelDispatch => true
  | _ => false

/-- Is this construct an API call? -/
def isApiCall : Construct → Bool
  | .call _ => true
  | _ => false

/-- The API calls of a cell, in order. -/
def apiCallsOf (cell : List Construct) : List ApiCall :=
  cell.filterMap (fun k => match k with | .call c => some c | _ => none)

/-! ## The pre-commit configuration

`src/.pre-commit-config.yaml` transcribed as data: two repository entries, the
ruff hooks and the local static-type-check hook whose `entry` (a YAML folded
scalar, newlines folded to spaces) fetches a remote script with curl and pipes
it to bash. -/

/-- One pre-commit hook entry. -/
structure Hook where
  id : String
  name : Option String
  args : List String
  entry : Option String
  language : Option String
  types : List String
  pass_filenames : Option Bool
deriving DecidableEq

/-- One `repos:` entry of the pre-commit configuration. -/
structure PreCommitRepo where
  repo : String
  rev : Option String
  hooks : List Hook
deriving DecidableEq

/-- The folded `entry:` of the `ci_type_mypy` hook. -/
def typeMypyEntry : String :=
  "bash -c 'set -o pipefail; export CUSTOM_PACKAGES=\"instructor/cli/cli.py instructor/cli/usage.py\" && export CUSTOM_FLAGS=\"--python-version=3.9 --color-output --no-pretty\" && curl -sSL https://raw.githubusercontent.com/gao-hongnan/omniverse/continuous-integration/scripts/devops/continuous-integration/type_mypy.sh | bash'"

/-- The whole `repos:` list of `src/.pre-commit-config.yaml`. -/
def preCommitConfig : List PreCommitRepo :=
  [⟨"https://github.com/astral-sh/ruff-pre-commit", some "v0.1.7",
    [⟨"ruff", none, ["--fix"], none, none, [], none⟩,
     ⟨"ruff-format", none, [], none, none, [], none⟩]⟩,
   ⟨"local", none,
    [⟨"ci_type_mypy", some "Static Type Check", [], some typeMypyEntry,
      some "system", ["python"], some false⟩]⟩]

/-! ## Supporting lemmas -/

/-- Membership in the edge list: `(a, b)` is an edge exactly when some user in
the list has id `a`, lists `b` as a friend, and `b > a`. -/
theorem mem_edgesOf {us : List TipsGraph.Character} {a b : Int} :
    (a, b) ∈ TipsGraph.edgesOf us ↔
      ∃ u ∈ us, u.id = a ∧ b ∈ u.friends ∧ b > a := by
  simp only [TipsGraph.edgesOf, List.mem_flatMap, List.mem_map, List.mem_filter,
    decide_eq_true_eq, Prod.mk.injEq]
  constructor
  · rintro ⟨u, hu, f, ⟨hf, hgt⟩, h1, h2⟩
    exact ⟨u, hu, h1, h2 ▸ hf, h1 ▸ h2 ▸ hgt⟩
  · rintro ⟨u, hu, ha, hb, hgt⟩
    exact ⟨u, hu, b, ⟨hb, ha ▸ hgt⟩, ha, rfl⟩

/-- When the users' ids are pairwise distinct and each friends list is
duplicate-free, the edge list has no duplicates. -/
theorem edgesOf_nodup {us : List TipsGraph.Character}
    (hid : (us.map TipsGraph.Character.id).Nodup)
    (hfr : ∀ v ∈ us, v.friends.Nodup) :
    (TipsGraph.edgesOf us).Nodup := by
  rw [TipsGraph.edgesOf]
  refine List.nodup_flatMap.2 ⟨?_, ?_⟩
  · intro u hu
    refine List.Nodup.map ?_ ((hfr u hu).filter _)
    intro x y hxy
    simpa using hxy
  · have h2 : us.Pairwise (fun u v => u.id ≠ v.id) := List.pairwise_map.1 hid
    refine h2.imp ?_
    intro u v hne x hx hy
    simp only [List.mem_map, List.mem_filter] at hx hy
    obtain ⟨f, _, rfl⟩ := hx
    obtain ⟨g, _, hge⟩ := hy
    exact hne (congrArg Prod.fst hge).symm

/-- A duplicate-free list holds each value at most once. -/
theorem count_le_one_of_nodup {α : Type _} [BEq α] [LawfulBEq α] {l : List α}
    (h : l.Nodup) (a : α) : l.count a ≤ 1 := by
  induction l with
  | nil => simp
  | cons x xs ih =>
    rw [List.count_cons]
    rcases List.nodup_cons.1 h with ⟨hx, hxs⟩
    by_cases hxa : x = a
    · subst hxa
      simp [List.count_eq_zero_of_not_mem hx]
    · simpa [hxa] using ih hxs

/-- Filtering friends before pairing them with the user's id is the same as
pairing first and filtering the pairs. -/
theorem filter_map_pair (i : Int) (fs : List Int) :
    (fs.filter (fun f => decide (f > i))).map (fun f => (i, f))
      = (fs.map (fun f => (i, f))).filter (fun p => decide (p.2 > p.1)) := by
  induction fs with
  | nil => rfl
  | cons f fs ih =>
    by_cases h : i < f
    · simp [List.filter_cons, h, ih]
    · simp [List.filter_cons, h, ih]

/-! ## Claims -/

/-- C1, counterexample: the spec's "limited to display, with no locally
computed, deterministic function of its inputs" fails at a concrete response.
For two users who list each other as friends, the edges the cell hands to
graphviz differ from the `(user.id, friend_id)` pairs read from the response:
the cell computes a deterministic selection of its inputs. -/
theorem edge_cell_not_display_only :
    TipsGraph.edgesOf
        [⟨1, "Harry Potter", [2]⟩, ⟨2, "Hermione Granger", [1]⟩] ≠
      TipsGraph.displayOnlyEdges
        [⟨1, "Harry Potter", [2]⟩, ⟨2, "Hermione Granger", [1]⟩] := by
  decide

/-- C1, amended: the repository does contain locally computed, deterministic,
source-owned functions of cell inputs.  The graph cell's edge construction is
exactly a deterministic filter of the displayed friend pairs (keep `(a, b)`
when `b > a`), and `Character.say_hello` computes a deterministic formatted
string, title-casing the house value — here evaluated at the character the
notebook itself records. -/
theorem local_deterministic_computations :
    (∀ us : List TipsGraph.Character,
        TipsGraph.edgesOf us =
          (TipsGraph.displayOnlyEdges us).filter (fun p => decide (p.2 > p.1)))
    ∧ (Tips.Character.mk 17 "Harry Potter" Tips.House.Gryffindor).say_hello =
        "Hello, I'm Harry Potter, I'm 17 years old and I'm from Gryffindor" := by
  constructor
  · intro us
    induction us with
    | nil => rfl
    | cons u rest ih =>
      simp only [TipsGraph.edgesOf, TipsGraph.displayOnlyEdges, List.flatMap_cons,
        List.filter_append] at ih ⊢
      rw [ih, filter_map_pair]
  · rfl

/-- C2: the schema declarations enforce no invariants beyond typing.
Constructing a `Property` with any key (snake case or not) succeeds and stores
the key unchanged; constructing a `Character` with a properties list of any
length (here 0, not 5) succeeds; the "Must be snake case" and "should be
exactly 5" texts exist only as `Field` description prose in the transcribed
schema data. -/
theorem schema_fields_not_validated :
    (∀ i k v : String, (TipsProps.Property.mk i k v).key = k)
    ∧ isSnakeCase "NotSnakeCase" = false
    ∧ (TipsProps.Property.mk "1" "NotSnakeCase" "courage").key = "NotSnakeCase"
    ∧ (∀ (a : Int) (n : String) (h : HouseLiteral) (ps : List TipsProps.Property),
        (TipsProps.Character.mk a n h ps).properties = ps)
    ∧ (TipsProps.Character.mk 38 "Severus Snape" HouseLiteral.Slytherin []).properties.length ≠ 5
    ∧ propertyIdxModel.fields.map PyField.description =
        [some "Monotonically increasing ID", some "Must be snake case", none]
    ∧ (characterProps5Model.fields.map PyField.description).getD 3 none =
        some "Numbered list of arbitrary extracted properties, should be exactly 5" := by
  refine ⟨fun i k v => rfl, rfl, rfl, fun a n h ps => rfl, by decide, rfl, rfl⟩

/-- C3: the pre-commit configuration has exactly two repository entries — the
ruff repo pinned at v0.1.7 with a `ruff` hook carrying `--fix` and a
`ruff-format` hook, and a local repo whose single "Static Type Check" hook has
`pass_filenames: false` and an entry that exports `CUSTOM_PACKAGES` naming
exactly `instructor/cli/cli.py` and `instructor/cli/usage.py`, then fetches a
remote script with curl and pipes it to bash. -/
theorem pre_commit_config_spec :
    preCommitConfig.length = 2
    ∧ preCommitConfig.map PreCommitRepo.repo =
        ["https://github.com/astral-sh/ruff-pre-commit", "local"]
    ∧ preCommitConfig.map PreCommitRepo.rev = [some "v0.1.7", none]
    ∧ preCommitConfig.map (fun r => r.hooks.map Hook.id) =
        [["ruff", "ruff-format"], ["ci_type_mypy"]]
    ∧ preCommitConfig.map (fun r => r.hooks.map Hook.args) = [[["--fix"], []], [[]]]
    ∧ preCommitConfig.map (fun r => r.hooks.map Hook.name) =
        [[none, none], [some "Static Type Check"]]
    ∧ preCommitConfig.map (fun r => r.hooks.map Hook.pass_filenames) =
        [[none, none], [some false]]
    ∧ preCommitConfig.map (fun r => r.hooks.map Hook.entry) =
        [[none, none], [some typeMypyEntry]]
    ∧ typeMypyEntry =
        "bash -c 'set -o pipefail; export CUSTOM_PACKAGES=\"" ++
          "instructor/cli/cli.py instructor/cli/usage.py" ++
          "\" && export CUSTOM_FLAGS=\"--python-version=3.9 --color-output --no-pretty\" && curl -sSL " ++
          "https://raw.githubusercontent.com/gao-hongnan/omniverse/continuous-integration/scripts/devops/continuous-integration/type_mypy.sh" ++
          " | bash'" := by
  set_option maxRecDepth 10000 in
  exact ⟨rfl, rfl, rfl, rfl, rfl, rfl, rfl, rfl, rfl⟩

/-- C4, counterexample: "for every unordered pair of distinct identifiers at
most one edge is drawn between them" fails when a friend id is listed twice.
For the single user `id = 1` with `friends = [2, 2]`, two edges are drawn
between the distinct identifiers 1 and 2. -/
theorem graph_duplicate_edge_counterexample :
    ((1 : Int) ≠ 2)
    ∧ ¬ ((TipsGraph.edgesOf [⟨1, "Harry Potter", [2, 2]⟩]).count ((1 : Int), (2 : Int)) ≤ 1) := by
  decide

/-- C4, amended: for every user `u` in the response and friend `f` in
`u.friends`, the edge `(u.id, f)` is drawn iff `f > u.id`; no two opposite
edges are ever drawn between a pair, and no self-edge is ever drawn; and when
the users' ids are pairwise distinct and each friends list is duplicate-free,
at most one edge is drawn between any pair of identifiers. -/
theorem graph_edge_construction (us : List TipsGraph.Character) :
    (∀ u ∈ us, ∀ f ∈ u.friends, ((u.id, f) ∈ TipsGraph.edgesOf us ↔ f > u.id))
    ∧ (∀ a b : Int, (a, b) ∈ TipsGraph.edgesOf us → (b, a) ∉ TipsGraph.edgesOf us)
    ∧ (∀ a : Int, (a, a) ∉ TipsGraph.edgesOf us)
    ∧ ((us.map TipsGraph.Character.id).Nodup → (∀ v ∈ us, v.friends.Nodup) →
        ∀ a b : Int, (TipsGraph.edgesOf us).count (a, b) ≤ 1) := by
  refine ⟨?_, ?_, ?_, ?_⟩
  · intro u hu f hf
    constructor
    · intro h
      obtain ⟨v, _, hva, _, hgt⟩ := mem_edgesOf.1 h
      exact hgt
    · intro hgt
      exact mem_edgesOf.2 ⟨u, hu, rfl, hf, hgt⟩
  · intro a b hab hba
    obtain ⟨_, _, _, _, h1⟩ := mem_edgesOf.1 hab
    obtain ⟨_, _, _, _, h2⟩ := mem_edgesOf.1 hba
    exact absurd h2 (not_lt.2 (le_of_lt h1))
  · intro a h
    obtain ⟨_, _, _, _, h1⟩ := mem_edgesOf.1 h
    exact lt_irrefl a h1
  · intro hid hfr a b
    exact count_le_one_of_nodup (edgesOf_nodup hid hfr) (a, b)

/-- C5: for every `Character`, `say_hello` produces exactly
"Hello, I'm {name}, I'm {age} years old and I'm from {H}" where `H` is the
house's enum value with its first letter capitalized. -/
theorem say_hello_format (c : Tips.Character) :
    c.say_hello =
      "Hello, I'm " ++ c.name ++ ", I'm " ++ toString c.age ++
        " years old and I'm from " ++ capFirstLetter c.house.value := by
  obtain ⟨age, name, house⟩ := c
  cases house <;> rfl

/-- C6: the notebooks demonstrate each named pattern — a classification schema
(the four-valued `House` enum, and the `Literal`-typed `house` field), nested
object extraction (`Character` holding `List[Property]`), list generation (a
call with `Iterable[Character]` as response model) and query decomposition
(`QueryPlan` holding a list of `Question` records whose `subquestions` link by
integer id). -/
theorem notebook_patterns_present :
    (∃ f ∈ characterEnumModel.fields,
       f.ty = FieldTy.enumTy "House" ["gryffindor", "hufflepuff", "ravenclaw", "slytherin"])
    ∧ houseEnum.members.length = 4
    ∧ (∃ f ∈ characterLiteralModel.fields, f.ty = FieldTy.literal houseLiterals)
    ∧ (∃ f ∈ characterPropsModel.fields, f.ty = FieldTy.listOf (FieldTy.ref "Property"))
    ∧ (∃ cell ∈ allCells,
        Construct.call ⟨"gpt-4-1106-preview", false, RespModel.iterable "Character"⟩ ∈ cell)
    ∧ (∃ f ∈ queryPlanModel.fields, f.ty = FieldTy.listOf (FieldTy.ref "Question"))
    ∧ (∃ f ∈ questionModel.fields,
        f.name = "subquestions" ∧ f.ty = FieldTy.listOf FieldTy.int) := by
  decide

/-- C7: no code cell of either notebook contains an exception handler, retry
loop or fallback path — for every construct of every transcribed cell,
`isErrorHandling` is false. -/
theorem no_error_handling_in_cells :
    ∀ cell ∈ allCells, ∀ k ∈ cell, isErrorHandling k = false := by
  decide

/-- Witness for C7, at the first cell of the RAG notebook. -/
theorem no_error_handling_in_cells_witness :
    isErrorHandling Construct.clientInit = false :=
  no_error_handling_in_cells [Construct.imports, Construct.clientInit] (by decide)
    Construct.clientInit (by decide)

/-- C8: every request is a sequential, single-shot, synchronous call: no cell
holds an await or parallel-dispatch construct (nor a retry loop), and the cell
accompanying the "asynchronously dispatch" narrative performs exactly one
blocking `create` call, with `stream` unset and a single `Retrival` response
model. -/
theorem requests_synchronous_single_shot :
    (∀ cell ∈ allCells, ∀ k ∈ cell, isAsyncDispatch k = false ∧ k ≠ Construct.retryLoop)
    ∧ ragRetrievalCell ∈ ragCells
    ∧ ragRetrievalCell.countP isApiCall = 1
    ∧ apiCallsOf ragRetrievalCell =
        [⟨"gpt-4-1106-preview", false, RespModel.single "Retrival"⟩] := by
  decide

/-- C9: an `Extraction` constructed without `hypothetical_questions` or
`keywords`, and a `Question` constructed without `subquestions`, get the empty
list for those fields, so iterating them on a fresh instance observes zero
elements. -/
theorem default_factory_empty (topic summary : String) (id : Int) (query : String) :
    (Rag.Extraction.make topic summary none none).hypothetical_questions = []
    ∧ (Rag.Extraction.make topic summary none none).keywords = []
    ∧ (Rag.Question.make id query none).subquestions = [] :=
  ⟨rfl, rfl, rfl⟩
